import Mathlib

/-!
Shallow embedding of `src/main.py` (12-vacancy-parser): a pipeline that
paginates two job-listing APIs (hh.ru and superjob.ru), predicts a salary
per listing, and aggregates per-language statistics.

Modelling conventions:
  * Python `Optional[int]` becomes `Option Int`.
  * Python truthiness on an optional integer (`if salary_from`) is `truthy`:
    `none` and `some 0` are falsy, every other value truthy.
  * Python `int(x)` on a float truncates toward zero; the float products
    `x * 1.2`, `x * 0.8`, `(a + b) / 2` and `sum / n` are modelled as the
    exact rationals `6x/5`, `4x/5`, `(a+b)/2`, `sum/n` truncated toward
    zero, i.e. `Int.tdiv` (exact for all magnitudes below the 2^53 scale at
    which Python doubles would drift).
  * The HTTP transport is abstracted as a function from page index to a
    parsed response; a non-success status (`raise_for_status`) is an
    `httpError` constructor carrying the status code.
  * Python generators become the list of pairs they yield together with an
    `Option Nat` recording the HTTP status of an aborting transport error
    (`none` = normal termination).
  * In `get_hh_statistics` / `get_sj_statistics` the Python loop variable
    `vacancy_count` leaks across languages and is unbound until the first
    pair is yielded; it is threaded as an `Option Int` seeded with `none`,
    and building a row from `none` (Python's NameError) makes the whole
    result `none`.
-/

/-- Python truthiness of an optional integer: `None` and `0` are falsy. -/
def truthy : Option Int → Bool
  | none => false
  | some v => v != 0

/-- `predict_salary` (src/main.py:78-88): approximate salary from optional
bounds, with Python truthiness on each bound. -/
def predict_salary (salary_from salary_to : Option Int) : Option Int :=
  if truthy salary_from && truthy salary_to then
    some (Int.tdiv (salary_from.getD 0 + salary_to.getD 0) 2)
  else if truthy salary_from then
    some (Int.tdiv (salary_from.getD 0 * 6) 5)
  else if truthy salary_to then
    some (Int.tdiv (salary_to.getD 0 * 4) 5)
  else
    none

/-- The `salary` sub-object of an hh.ru vacancy: keys `currency`, `from`, `to`. -/
structure HHSalary where
  currency : String
  «from» : Option Int
  «to» : Option Int
deriving DecidableEq

/-- An hh.ru vacancy as `predict_rub_salary_hh` reads it: the `salary` key,
which may be null (falsy). -/
structure HHVacancy where
  salary : Option HHSalary
deriving DecidableEq

/-- A superjob.ru vacancy as `predict_rub_salary_sj` reads it. -/
structure SJVacancy where
  currency : String
  payment_from : Option Int
  payment_to : Option Int
deriving DecidableEq

/-- `predict_rub_salary_hh` (src/main.py:91-96). -/
def predict_rub_salary_hh (vacancy : HHVacancy) : Option Int :=
  match vacancy.salary with
  | some salary =>
      if salary.currency = "RUR" then predict_salary salary.«from» salary.«to»
      else none
  | none => none

/-- `predict_rub_salary_sj` (src/main.py:99-103). -/
def predict_rub_salary_sj (vacancy : SJVacancy) : Option Int :=
  if vacancy.currency = "rub" then
    predict_salary vacancy.payment_from vacancy.payment_to
  else none

/-- One parsed page of the hh.ru listings endpoint, as `fetch_hh_vacancies`
reads it: keys `pages`, `found`, `items`. -/
structure HHPage where
  pages : Nat
  found : Int
  items : List HHVacancy
deriving DecidableEq

/-- One parsed page of the superjob.ru listings endpoint, as
`fetch_sj_vacancies` reads it: keys `more`, `total`, `objects`. -/
structure SJPage where
  more : Bool
  total : Int
  objects : List SJVacancy
deriving DecidableEq

/-- A transport response for one hh.ru page request: the parsed JSON, or a
non-success HTTP status (which `raise_for_status` turns into an exception). -/
inductive HHResponse where
  | ok (page : HHPage)
  | httpError (status : Nat)
deriving DecidableEq

/-- A transport response for one superjob.ru page request. -/
inductive SJResponse where
  | ok (page : SJPage)
  | httpError (status : Nat)
deriving DecidableEq

/-- The page loop of `fetch_hh_vacancies` (src/main.py:19-42), from the
current `page` index and the previous response's `pages` field: yields each
item of a fetched page paired with that page's `found`, stops when
`page > pages` or `page == 200`, and aborts with the status of a failing
response. The fuel argument only bounds the recursion; started at `201` from
page `0` it never runs out before the `page == 200` check fires. -/
def fetch_hh_go (transport : Nat → HHResponse) :
    Nat → Nat → Nat → List (HHVacancy × Int) × Option Nat
  | 0, _, _ => ([], none)
  | fuel + 1, page, pages =>
    if page > pages ∨ page = 200 then ([], none)
    else
      match transport page with
      | .httpError status => ([], some status)
      | .ok page_content =>
          let rest := fetch_hh_go transport fuel (page + 1) page_content.pages
          (page_content.items.map (fun vacancy => (vacancy, page_content.found))
             ++ rest.1,
           rest.2)

/-- `fetch_hh_vacancies` (src/main.py:10-42): the whole generator run, seeded
with `page_content = ("pages": 0)`. Returns the yielded pairs and, when a page
request had a non-success status, that status. -/
def fetch_hh_vacancies (transport : Nat → HHResponse) :
    List (HHVacancy × Int) × Option Nat :=
  fetch_hh_go transport 201 0 0

/-- The page loop of `fetch_sj_vacancies` (src/main.py:53-75), from the
current `page` index and the previous response's `more` flag: stops when
`more` is falsy or `page == 50`. -/
def fetch_sj_go (transport : Nat → SJResponse) :
    Nat → Nat → Bool → List (SJVacancy × Int) × Option Nat
  | 0, _, _ => ([], none)
  | fuel + 1, page, more =>
    if more = false ∨ page = 50 then ([], none)
    else
      match transport page with
      | .httpError status => ([], some status)
      | .ok page_content =>
          let rest := fetch_sj_go transport fuel (page + 1) page_content.more
          (page_content.objects.map (fun vacancy => (vacancy, page_content.total))
             ++ rest.1,
           rest.2)

/-- `fetch_sj_vacancies` (src/main.py:45-75): seeded with
`page_content = ("more": "True")`, a truthy string. -/
def fetch_sj_vacancies (transport : Nat → SJResponse) :
    List (SJVacancy × Int) × Option Nat :=
  fetch_sj_go transport 51 0 true

/-- One row appended to `language_statistics` (src/main.py:135-142 and
173-180): `[language, vacancy_count, vacancies_processed, average]`. -/
structure SummaryRow where
  language : String
  totalFound : Int
  totalProcessed : Nat
  averageSalary : Int
deriving DecidableEq

/-- One iteration of the aggregation loop (src/main.py:125-134 / 163-172)
on the state `(vacancies_processed, salaries_sum, vacancy_count)`: the loop
header binds `vacancy_count` to the pair's second component even when the
body `continue`s; a falsy vacancy (`None`) and a falsy prediction (`None`
or `0`) are skipped. -/
def agg_step {V : Type} (pred : V → Option Int)
    (st : Nat × Int × Option Int) (pair : Option V × Int) :
    Nat × Int × Option Int :=
  match pair.1 with
  | none => (st.1, st.2.1, some pair.2)
  | some vacancy =>
    match pred vacancy with
    | none => (st.1, st.2.1, some pair.2)
    | some s =>
        if s = 0 then (st.1, st.2.1, some pair.2)
        else (st.1 + 1, st.2.1 + s, some pair.2)

/-- The whole inner loop over one language's yielded pairs, from the initial
`vacancy_count` binding `lastCount` (the variable leaks across languages in
Python, so it is threaded rather than reset). -/
def agg_fold {V : Type} (pred : V → Option Int)
    (pairs : List (Option V × Int)) (lastCount : Option Int) :
    Nat × Int × Option Int :=
  pairs.foldl (agg_step pred) (0, 0, lastCount)

/-- The per-language loop shared by `get_hh_statistics` (src/main.py:106-143)
and `get_sj_statistics` (src/main.py:146-181), with the per-language HTTP
fetch abstracted as `fetch : language → yielded pairs`. Appending a row reads
`vacancy_count`; when no pair was ever yielded it is still unbound and Python
raises NameError, modelled as `none`. -/
def get_statistics {V : Type} (pred : V → Option Int)
    (fetch : String → List (Option V × Int)) :
    List String → Option Int → Option (List SummaryRow)
  | [], _ => some []
  | language :: rest, lastCount =>
    let r := agg_fold pred (fetch language) lastCount
    match r.2.2 with
    | none => none
    | some vacancy_count =>
      match get_statistics pred fetch rest (some vacancy_count) with
      | none => none
      | some rows =>
          some (⟨language, vacancy_count, r.1,
                 if r.1 = 0 then 0 else Int.tdiv r.2.1 (r.1 : Int)⟩ :: rows)

/-- `get_hh_statistics` (src/main.py:106-143) with the transport abstracted:
`fetch language` is the pair sequence `fetch_hh_vacancies` yields for that
language's query. -/
def get_hh_statistics (fetch : String → List (Option HHVacancy × Int))
    (languages : List String) : Option (List SummaryRow) :=
  get_statistics predict_rub_salary_hh fetch languages none

/-- `get_sj_statistics` (src/main.py:146-181) with the transport abstracted. -/
def get_sj_statistics (fetch : String → List (Option SJVacancy × Int))
    (languages : List String) : Option (List SummaryRow) :=
  get_statistics predict_rub_salary_sj fetch languages none

/-- A yielded pair passes the aggregation loop's two skip tests: the vacancy
is non-null and its prediction is truthy (present and nonzero). -/
def resolvable {V : Type} (pred : V → Option Int) (pair : Option V × Int) : Bool :=
  match pair.1 with
  | none => false
  | some vacancy =>
    match pred vacancy with
    | none => false
    | some s => s != 0

/-- The predicted salary a pair contributes to the running sum (0 when the
pair is skipped). -/
def predVal {V : Type} (pred : V → Option Int) (pair : Option V × Int) : Int :=
  match pair.1 with
  | none => 0
  | some vacancy => (pred vacancy).getD 0

/-- C1: `predict_salary` on bounds that are present and truthy (nonzero)
returns their midpoint truncated toward zero; with only a truthy lower bound
(the upper absent or zero) it returns `lower * 1.2` truncated; with only a
truthy upper bound it returns `upper * 0.8` truncated; with neither it
returns `none`. In particular the spec's four test values hold. -/
theorem c1_predict_salary_truthy_rule :
    (∀ x y : Int, x ≠ 0 → y ≠ 0 →
        predict_salary (some x) (some y) = some (Int.tdiv (x + y) 2)) ∧
    (∀ x : Int, x ≠ 0 →
        predict_salary (some x) none = some (Int.tdiv (x * 6) 5) ∧
        predict_salary (some x) (some 0) = some (Int.tdiv (x * 6) 5)) ∧
    (∀ y : Int, y ≠ 0 →
        predict_salary none (some y) = some (Int.tdiv (y * 4) 5) ∧
        predict_salary (some 0) (some y) = some (Int.tdiv (y * 4) 5)) ∧
    predict_salary none none = none ∧
    predict_salary (some 0) none = none ∧
    predict_salary none (some 0) = none ∧
    predict_salary (some 0) (some 0) = none ∧
    predict_salary (some 1000) (some 2000) = some 1500 ∧
    predict_salary (some 1000) none = some 1200 ∧
    predict_salary none (some 1000) = some 800 := by
  refine ⟨fun x y hx hy => by simp [predict_salary, truthy, hx, hy],
    fun x hx => ⟨by simp [predict_salary, truthy, hx],
                 by simp [predict_salary, truthy, hx]⟩,
    fun y hy => ⟨by simp [predict_salary, truthy, hy],
                 by simp [predict_salary, truthy, hy]⟩,
    by decide, by decide, by decide, by decide, by decide, by decide, by decide⟩

/-- C1 witness: the truthy-rule branches are inhabited at the spec's own
test values. -/
theorem c1_predict_salary_truthy_rule_witness :
    predict_salary (some 1000) (some 2000) = some (Int.tdiv (1000 + 2000) 2) ∧
    predict_salary (some 1000) none = some (Int.tdiv (1000 * 6) 5) ∧
    predict_salary none (some 1000) = some (Int.tdiv (1000 * 4) 5) :=
  ⟨c1_predict_salary_truthy_rule.1 1000 2000 (by decide) (by decide),
   (c1_predict_salary_truthy_rule.2.1 1000 (by decide)).1,
   (c1_predict_salary_truthy_rule.2.2.1 1000 (by decide)).1⟩

/-- C1 counterexample: with a present-but-zero lower bound and upper bound
1000 the code returns 800 (the upper-only branch), not the midpoint 500 the
claim's "both bounds present" case demands. -/
theorem c1_zero_bound_counterexample :
    predict_salary (some 0) (some 1000) = some 800 ∧
    predict_salary (some 0) (some 1000) ≠ some (Int.tdiv (0 + 1000) 2) := by
  decide

/-- C2: a lower bound of 0 behaves exactly like an absent lower bound for
every optional upper bound, and in particular
`predict(0, 1000) == predict(None, 1000) == 800`. -/
theorem c2_zero_lower_as_absent :
    (∀ salary_to : Option Int,
        predict_salary (some 0) salary_to = predict_salary none salary_to) ∧
    predict_salary (some 0) (some 1000) = some 800 ∧
    predict_salary none (some 1000) = some 800 := by
  refine ⟨fun salary_to => ?_, by decide, by decide⟩
  cases salary_to <;> simp [predict_salary, truthy]

/-- getLastD of a cons in `getLast?.getD` form. -/
theorem getLast?_getD_cons {α : Type} :
    ∀ (l : List α) (a d : α), ((a :: l).getLast?).getD d = (l.getLast?).getD a
  | [], _, _ => rfl
  | b :: t, a, d => by
    rw [List.getLast?_cons_cons, getLast?_getD_cons t b d, getLast?_getD_cons t b a]

/-- The aggregation loop computes: processed = number of resolvable pairs,
sum = their predicted values' sum, and `vacancy_count` = the last yielded
pair's count (unchanged when nothing was yielded). -/
theorem agg_fold_spec {V : Type} (pred : V → Option Int) :
    ∀ (pairs : List (Option V × Int)) (st : Nat × Int × Option Int),
      pairs.foldl (agg_step pred) st =
        (st.1 + (pairs.filter (resolvable pred)).length,
         st.2.1 + ((pairs.filter (resolvable pred)).map (predVal pred)).sum,
         (pairs.map (fun pair => some pair.2)).getLastD st.2.2)
  | [], st => by simp
  | pair :: rest, st => by
    rw [List.foldl_cons, agg_fold_spec pred rest]
    obtain ⟨ov, c⟩ := pair
    match ov with
    | none =>
      simp [agg_step, resolvable, getLast?_getD_cons]
    | some v =>
      match hp : pred v with
      | none =>
        simp [agg_step, resolvable, hp, getLast?_getD_cons]
      | some s =>
        by_cases hs : s = 0
        · simp [agg_step, resolvable, predVal, hp, hs, getLast?_getD_cons]
        · simp [agg_step, resolvable, predVal, hp, hs, getLast?_getD_cons]
          constructor
          · omega
          · ring

/-- A single-language run of the statistics loop over a nonempty fetch
sequence: one row, whose fields are computed from the sequence. -/
theorem get_statistics_single {V : Type} (pred : V → Option Int)
    (fetch : String → List (Option V × Int)) (language : String)
    (lastCount : Option Int) (hne : fetch language ≠ []) :
    get_statistics pred fetch [language] lastCount =
      some [⟨language, ((fetch language).getLast hne).2,
             ((fetch language).filter (resolvable pred)).length,
             if ((fetch language).filter (resolvable pred)).length = 0 then 0
             else Int.tdiv
                    (((fetch language).filter (resolvable pred)).map (predVal pred)).sum
                    (((fetch language).filter (resolvable pred)).length : Int)⟩] := by
  unfold get_statistics agg_fold
  rw [agg_fold_spec]
  simp [List.getLast?_eq_getLast _ hne, get_statistics]
  rw [Nat.zero_add]

/-- C3 (amended): for a nonempty fetch sequence in which exactly k pairs are
resolvable (non-null vacancy, truthy prediction) with predictions summing
to S, the row has totalProcessed = k and averageSalary = S/k truncated
toward zero (equal to floor(S/k) when S ≥ 0) when k > 0, else 0 — for both
sources. -/
theorem c3_aggregator_trunc
    (fetchH : String → List (Option HHVacancy × Int))
    (fetchS : String → List (Option SJVacancy × Int)) (language : String)
    (hH : fetchH language ≠ []) (hS : fetchS language ≠ []) :
    get_hh_statistics fetchH [language] =
      some [⟨language, ((fetchH language).getLast hH).2,
             ((fetchH language).filter (resolvable predict_rub_salary_hh)).length,
             if ((fetchH language).filter (resolvable predict_rub_salary_hh)).length = 0
             then 0
             else Int.tdiv
                    (((fetchH language).filter (resolvable predict_rub_salary_hh)).map
                       (predVal predict_rub_salary_hh)).sum
                    (((fetchH language).filter
                        (resolvable predict_rub_salary_hh)).length : Int)⟩] ∧
    get_sj_statistics fetchS [language] =
      some [⟨language, ((fetchS language).getLast hS).2,
             ((fetchS language).filter (resolvable predict_rub_salary_sj)).length,
             if ((fetchS language).filter (resolvable predict_rub_salary_sj)).length = 0
             then 0
             else Int.tdiv
                    (((fetchS language).filter (resolvable predict_rub_salary_sj)).map
                       (predVal predict_rub_salary_sj)).sum
                    (((fetchS language).filter
                        (resolvable predict_rub_salary_sj)).length : Int)⟩] :=
  ⟨get_statistics_single predict_rub_salary_hh fetchH language none hH,
   get_statistics_single predict_rub_salary_sj fetchS language none hS⟩

/-- C3 witness: a concrete one-pair run per source, with the row fields
evaluated. -/
theorem c3_aggregator_trunc_witness :
    get_hh_statistics (fun _ => [(none, 42)]) ["Go"] = some [⟨"Go", 42, 0, 0⟩] ∧
    get_sj_statistics (fun _ => [(none, 43)]) ["Go"] = some [⟨"Go", 43, 0, 0⟩] := by
  have h := c3_aggregator_trunc (fun _ => [(none, 42)]) (fun _ => [(none, 43)]) "Go"
      (by decide) (by decide)
  exact ⟨h.1.trans (by decide), h.2.trans (by decide)⟩

/-- C3 counterexample: two RUR listings with upper bounds -2 and -3 have
truthy predictions -1 and -2 (k = 2, S = -3); the code's averageSalary is
`int(-3 / 2) = -1`, not `floor(-3 / 2) = -2` as the claim's `floor(S/k)`
demands. Additionally an empty fetch sequence produces no row at all
(`none`), so the claim also fails at n = 0. -/
theorem c3_floor_counterexample :
    get_hh_statistics
        (fun _ => [(some ⟨some ⟨"RUR", none, some (-2)⟩⟩, 5),
                   (some ⟨some ⟨"RUR", none, some (-3)⟩⟩, 5)]) ["Go"] =
      some [⟨"Go", 5, 2, -1⟩] ∧
    Int.fdiv (-3) 2 = -2 ∧
    get_hh_statistics (fun _ => []) ["Go"] = none := by decide

/-- C4: a language whose fetch yields zero pairs does NOT get a SummaryRow
with a default totalFound. For the first such language `vacancy_count` was
never bound and Python raises NameError (modelled: the whole result is
`none`); for a later language the row silently reuses the previous
language's count (here Ruby's row repeats Go's 42). -/
theorem c4_empty_fetch_crash :
    get_hh_statistics (fun _ => []) ["JavaScript"] = none ∧
    get_sj_statistics (fun _ => []) ["JavaScript"] = none ∧
    get_hh_statistics (fun language => if language = "Go" then [(none, 42)] else [])
        ["Go", "Ruby"] = some [⟨"Go", 42, 0, 0⟩, ⟨"Ruby", 42, 0, 0⟩] := by decide

/-- C10: a pair whose prediction is exactly 0 is skipped by the aggregation
step exactly as a null vacancy is: processed and sum are unchanged (only
`vacancy_count` is rebound). A zero prediction is reachable: an upper
bound of 1 gives `int(1 * 0.8) = 0`, and a whole run over such a listing
processes nothing. -/
theorem c10_zero_prediction_skipped :
    (∀ (V : Type) (pred : V → Option Int) (st : Nat × Int × Option Int)
        (v : V) (c : Int), pred v = some 0 →
        agg_step pred st (some v, c) = agg_step pred st (none, c) ∧
        agg_step pred st (some v, c) = (st.1, st.2.1, some c)) ∧
    predict_salary none (some 1) = some 0 ∧
    predict_rub_salary_hh ⟨some ⟨"RUR", none, some 1⟩⟩ = some 0 ∧
    predict_rub_salary_sj ⟨"rub", none, some 1⟩ = some 0 ∧
    get_hh_statistics (fun _ => [(some ⟨some ⟨"RUR", none, some 1⟩⟩, 4)]) ["Go"] =
      some [⟨"Go", 4, 0, 0⟩] := by
  refine ⟨fun V pred st v c h => ?_, by decide, by decide, by decide, by decide⟩
  constructor <;> simp [agg_step, h]

/-- C10 witness: the zero-prediction skip at a concrete state and listing. -/
theorem c10_zero_prediction_skipped_witness :
    agg_step predict_rub_salary_hh ((3 : Nat), (100 : Int), some (2 : Int))
        (some ⟨some ⟨"RUR", none, some 1⟩⟩, 9) = (3, 100, some 9) :=
  (c10_zero_prediction_skipped.1 HHVacancy predict_rub_salary_hh (3, 100, some 2)
      ⟨some ⟨"RUR", none, some 1⟩⟩ 9 (by decide)).2

/-- Per-language induction: in a completed run, the i-th row's totalFound is
the count carried by the last pair the fetch yielded for the i-th language
(when it yielded at least one pair). -/
theorem get_statistics_totalFound {V : Type} (pred : V → Option Int)
    (fetch : String → List (Option V × Int)) :
    ∀ (languages : List String) (lastCount : Option Int) (rows : List SummaryRow)
      (i : Nat) (language : String) (row : SummaryRow) (c : Int),
      get_statistics pred fetch languages lastCount = some rows →
      languages[i]? = some language →
      rows[i]? = some row →
      ((fetch language).map Prod.snd).getLast? = some c →
      row.totalFound = c
  | [], _, rows, i, language, row, c => by
    intro _ hl
    simp at hl
  | lang :: rest, lc, rows, i, language, row, c => by
    intro hres hl hr hlast
    simp only [get_statistics] at hres
    split at hres
    · exact absurd hres (by simp)
    · rename_i vc heq
      split at hres
      · exact absurd hres (by simp)
      · rename_i rows' heq2
        cases hres
        match i with
        | 0 =>
          rw [List.getElem?_cons_zero, Option.some.injEq] at hl hr
          subst hl
          rw [← hr]
          show vc = c
          unfold agg_fold at heq
          rw [agg_fold_spec] at heq
          rw [List.getLast?_map] at hlast
          obtain ⟨p, hp, hp2⟩ := Option.map_eq_some'.1 hlast
          simp [List.getLastD_eq_getLast?, List.getLast?_map, hp] at heq
          omega
        | i + 1 =>
          rw [List.getElem?_cons_succ] at hl hr
          exact get_statistics_totalFound pred fetch rest (some vc) rows' i
            language row c heq2 hl hr hlast

/-- C5: for every language whose fetch yields at least one pair, the
totalFound recorded in its SummaryRow is the totalFound carried by the last
pair yielded for that language — for both statistics functions. -/
theorem c5_total_found_last_pair :
    (∀ (fetch : String → List (Option HHVacancy × Int)) (languages : List String)
        (rows : List SummaryRow) (i : Nat) (language : String) (row : SummaryRow)
        (c : Int),
        get_hh_statistics fetch languages = some rows →
        languages[i]? = some language →
        rows[i]? = some row →
        ((fetch language).map Prod.snd).getLast? = some c →
        row.totalFound = c) ∧
    (∀ (fetch : String → List (Option SJVacancy × Int)) (languages : List String)
        (rows : List SummaryRow) (i : Nat) (language : String) (row : SummaryRow)
        (c : Int),
        get_sj_statistics fetch languages = some rows →
        languages[i]? = some language →
        rows[i]? = some row →
        ((fetch language).map Prod.snd).getLast? = some c →
        row.totalFound = c) :=
  ⟨fun fetch languages rows i language row c =>
      get_statistics_totalFound predict_rub_salary_hh fetch languages none rows i
        language row c,
   fun fetch languages rows i language row c =>
      get_statistics_totalFound predict_rub_salary_sj fetch languages none rows i
        language row c⟩

/-- C5 witness: a concrete completed run per source, where the row indeed
records the last pair's count. -/
theorem c5_total_found_last_pair_witness :
    (⟨"Go", 42, 0, 0⟩ : SummaryRow).totalFound = 42 ∧
    (⟨"Py", 7, 0, 0⟩ : SummaryRow).totalFound = 7 :=
  ⟨c5_total_found_last_pair.1 (fun _ => [(none, 42)]) ["Go"] [⟨"Go", 42, 0, 0⟩] 0 "Go"
      ⟨"Go", 42, 0, 0⟩ 42 (by decide) (by decide) (by decide) (by decide),
   c5_total_found_last_pair.2 (fun _ => [(none, 7)]) ["Py"] [⟨"Py", 7, 0, 0⟩] 0 "Py"
      ⟨"Py", 7, 0, 0⟩ 7 (by decide) (by decide) (by decide) (by decide)⟩

/-- One unfolding of the hh.ru page loop when fuel remains. -/
theorem fetch_hh_go_succ (t : Nat → HHResponse) (fuel page pages : Nat) :
    fetch_hh_go t (fuel + 1) page pages =
      if page > pages ∨ page = 200 then ([], none)
      else
        match t page with
        | .httpError status => ([], some status)
        | .ok pc =>
            (pc.items.map (fun vacancy => (vacancy, pc.found)) ++
               (fetch_hh_go t fuel (page + 1) pc.pages).1,
             (fetch_hh_go t fuel (page + 1) pc.pages).2) := rfl

/-- The hh.ru loop breaks when `page > pages` or `page == 200`. -/
theorem fetch_hh_go_stop (t : Nat → HHResponse) (fuel page pages : Nat)
    (hcond : page > pages ∨ page = 200) :
    fetch_hh_go t fuel page pages = ([], none) := by
  match fuel with
  | 0 => rfl
  | fuel + 1 => rw [fetch_hh_go_succ, if_pos hcond]

/-- A successful hh.ru page request emits its items and advances. -/
theorem fetch_hh_go_ok (t : Nat → HHResponse) (fuel page pages : Nat) (pc : HHPage)
    (hfuel : fuel ≠ 0) (hpg : ¬ page > pages) (hp200 : page ≠ 200)
    (hok : t page = .ok pc) :
    fetch_hh_go t fuel page pages =
      (pc.items.map (fun vacancy => (vacancy, pc.found)) ++
         (fetch_hh_go t (fuel - 1) (page + 1) pc.pages).1,
       (fetch_hh_go t (fuel - 1) (page + 1) pc.pages).2) := by
  match fuel with
  | 0 => exact absurd rfl hfuel
  | fuel + 1 =>
    rw [fetch_hh_go_succ, if_neg (by simp [hpg, hp200]), hok]
    simp

/-- A non-success hh.ru status aborts with nothing further yielded. -/
theorem fetch_hh_go_err (t : Nat → HHResponse) (fuel page pages : Nat) (s : Nat)
    (hfuel : fuel ≠ 0) (hpg : ¬ page > pages) (hp200 : page ≠ 200)
    (herr : t page = .httpError s) :
    fetch_hh_go t fuel page pages = ([], some s) := by
  match fuel with
  | 0 => exact absurd rfl hfuel
  | fuel + 1 =>
    rw [fetch_hh_go_succ, if_neg (by simp [hpg, hp200]), herr]

/-- One unfolding of the superjob.ru page loop when fuel remains. -/
theorem fetch_sj_go_succ (t : Nat → SJResponse) (fuel page : Nat) (more : Bool) :
    fetch_sj_go t (fuel + 1) page more =
      if more = false ∨ page = 50 then ([], none)
      else
        match t page with
        | .httpError status => ([], some status)
        | .ok pc =>
            (pc.objects.map (fun vacancy => (vacancy, pc.total)) ++
               (fetch_sj_go t fuel (page + 1) pc.more).1,
             (fetch_sj_go t fuel (page + 1) pc.more).2) := rfl

/-- The superjob.ru loop breaks when `more` is falsy or `page == 50`. -/
theorem fetch_sj_go_stop (t : Nat → SJResponse) (fuel page : Nat) (more : Bool)
    (hcond : more = false ∨ page = 50) :
    fetch_sj_go t fuel page more = ([], none) := by
  match fuel with
  | 0 => rfl
  | fuel + 1 => rw [fetch_sj_go_succ, if_pos hcond]

/-- A successful superjob.ru page request emits its objects and advances. -/
theorem fetch_sj_go_ok (t : Nat → SJResponse) (fuel page : Nat) (more : Bool)
    (pc : SJPage) (hfuel : fuel ≠ 0) (hm : more = true) (hp50 : page ≠ 50)
    (hok : t page = .ok pc) :
    fetch_sj_go t fuel page more =
      (pc.objects.map (fun vacancy => (vacancy, pc.total)) ++
         (fetch_sj_go t (fuel - 1) (page + 1) pc.more).1,
       (fetch_sj_go t (fuel - 1) (page + 1) pc.more).2) := by
  match fuel with
  | 0 => exact absurd rfl hfuel
  | fuel + 1 =>
    rw [fetch_sj_go_succ, if_neg (by simp [hm, hp50]), hok]
    simp

/-- A non-success superjob.ru status aborts with nothing further yielded. -/
theorem fetch_sj_go_err (t : Nat → SJResponse) (fuel page : Nat) (more : Bool)
    (s : Nat) (hfuel : fuel ≠ 0) (hm : more = true) (hp50 : page ≠ 50)
    (herr : t page = .httpError s) :
    fetch_sj_go t fuel page more = ([], some s) := by
  match fuel with
  | 0 => exact absurd rfl hfuel
  | fuel + 1 =>
    rw [fetch_sj_go_succ, if_neg (by simp [hm, hp50]), herr]

/-- C6: with a transport serving 3 pages of 10 listings and a 4th
empty/terminal page, each fetcher yields exactly 30 pairs — every listing of
each fetched page paired with that page's own totalFound, in page order. -/
theorem c6_three_pages_thirty
    (tH : Nat → HHResponse) (tS : Nat → SJResponse)
    (p0 p1 p2 p3 : HHPage) (q0 q1 q2 q3 : SJPage)
    (h0 : tH 0 = .ok p0) (h1 : tH 1 = .ok p1) (h2 : tH 2 = .ok p2) (h3 : tH 3 = .ok p3)
    (hp0 : p0.pages = 3) (hp1 : p1.pages = 3) (hp2 : p2.pages = 3) (hp3 : p3.pages = 3)
    (hi0 : p0.items.length = 10) (hi1 : p1.items.length = 10)
    (hi2 : p2.items.length = 10) (hi3 : p3.items = [])
    (g0 : tS 0 = .ok q0) (g1 : tS 1 = .ok q1) (g2 : tS 2 = .ok q2) (g3 : tS 3 = .ok q3)
    (hq0 : q0.more = true) (hq1 : q1.more = true) (hq2 : q2.more = true)
    (hq3 : q3.more = false)
    (hj0 : q0.objects.length = 10) (hj1 : q1.objects.length = 10)
    (hj2 : q2.objects.length = 10) (hj3 : q3.objects = []) :
    fetch_hh_vacancies tH =
      (p0.items.map (fun vacancy => (vacancy, p0.found)) ++
        (p1.items.map (fun vacancy => (vacancy, p1.found)) ++
          p2.items.map (fun vacancy => (vacancy, p2.found))), none) ∧
    (fetch_hh_vacancies tH).1.length = 30 ∧
    fetch_sj_vacancies tS =
      (q0.objects.map (fun vacancy => (vacancy, q0.total)) ++
        (q1.objects.map (fun vacancy => (vacancy, q1.total)) ++
          q2.objects.map (fun vacancy => (vacancy, q2.total))), none) ∧
    (fetch_sj_vacancies tS).1.length = 30 := by
  have hh : fetch_hh_vacancies tH =
      (p0.items.map (fun vacancy => (vacancy, p0.found)) ++
        (p1.items.map (fun vacancy => (vacancy, p1.found)) ++
          p2.items.map (fun vacancy => (vacancy, p2.found))), none) := by
    unfold fetch_hh_vacancies
    rw [fetch_hh_go_ok tH 201 0 0 p0 (by norm_num) (by norm_num) (by norm_num) h0, hp0]
    rw [fetch_hh_go_ok tH (201 - 1) (0 + 1) 3 p1 (by norm_num) (by norm_num)
        (by norm_num) h1, hp1]
    rw [fetch_hh_go_ok tH (201 - 1 - 1) (0 + 1 + 1) 3 p2 (by norm_num) (by norm_num)
        (by norm_num) h2, hp2]
    rw [fetch_hh_go_ok tH (201 - 1 - 1 - 1) (0 + 1 + 1 + 1) 3 p3 (by norm_num)
        (by norm_num) (by norm_num) h3, hp3, hi3]
    rw [fetch_hh_go_stop tH (201 - 1 - 1 - 1 - 1) (0 + 1 + 1 + 1 + 1) 3 (by norm_num)]
    simp
  have sj : fetch_sj_vacancies tS =
      (q0.objects.map (fun vacancy => (vacancy, q0.total)) ++
        (q1.objects.map (fun vacancy => (vacancy, q1.total)) ++
          q2.objects.map (fun vacancy => (vacancy, q2.total))), none) := by
    unfold fetch_sj_vacancies
    rw [fetch_sj_go_ok tS 51 0 true q0 (by norm_num) rfl (by norm_num) g0, hq0]
    rw [fetch_sj_go_ok tS (51 - 1) (0 + 1) true q1 (by norm_num) rfl (by norm_num) g1,
        hq1]
    rw [fetch_sj_go_ok tS (51 - 1 - 1) (0 + 1 + 1) true q2 (by norm_num) rfl
        (by norm_num) g2, hq2]
    rw [fetch_sj_go_ok tS (51 - 1 - 1 - 1) (0 + 1 + 1 + 1) true q3 (by norm_num) rfl
        (by norm_num) g3, hq3, hj3]
    rw [fetch_sj_go_stop tS (51 - 1 - 1 - 1 - 1) (0 + 1 + 1 + 1 + 1) false (Or.inl rfl)]
    simp
  refine ⟨hh, ?_, sj, ?_⟩
  · rw [hh]
    simp [hi0, hi1, hi2]
  · rw [sj]
    simp [hj0, hj1, hj2]

/-- From any reachable loop state, an hh.ru transport that never signals
completion is fetched exactly up to page 199. -/
theorem fetch_hh_go_run_ok (t : Nat → HHResponse) (pg : Nat → HHPage)
    (hok : ∀ p, t p = .ok (pg p)) (hcont : ∀ p, 200 ≤ (pg p).pages) :
    ∀ (d page pages fuel : Nat), page + d = 200 → d ≤ fuel → ¬ page > pages →
      fetch_hh_go t (fuel + 1) page pages =
        (((List.range' page d).map
            (fun p => (pg p).items.map (fun vacancy => (vacancy, (pg p).found)))).flatten,
         none)
  | 0, page, pages, fuel => by
    intro hd _ _
    have hp : page = 200 := by omega
    subst hp
    rw [fetch_hh_go_stop t (fuel + 1) 200 pages (Or.inr rfl)]
    simp
  | d + 1, page, pages, fuel => by
    intro hd hfuel hpg
    rw [fetch_hh_go_ok t (fuel + 1) page pages (pg page) (by omega) hpg (by omega)
        (hok page)]
    have hf : fuel + 1 - 1 = (fuel - 1) + 1 := by omega
    rw [hf]
    rw [fetch_hh_go_run_ok t pg hok hcont d (page + 1) (pg page).pages (fuel - 1)
        (by omega) (by omega) (by have := hcont page; omega)]
    rw [List.range'_succ, List.map_cons, List.flatten_cons]

/-- From any reachable loop state, a superjob.ru transport that never
signals completion is fetched exactly up to page 49. -/
theorem fetch_sj_go_run_ok (t : Nat → SJResponse) (pg : Nat → SJPage)
    (hok : ∀ p, t p = .ok (pg p)) (hcont : ∀ p, (pg p).more = true) :
    ∀ (d page fuel : Nat) (more : Bool), page + d = 50 → d ≤ fuel → more = true →
      fetch_sj_go t (fuel + 1) page more =
        (((List.range' page d).map
            (fun p => (pg p).objects.map (fun vacancy => (vacancy, (pg p).total)))).flatten,
         none)
  | 0, page, fuel, more => by
    intro hd _ _
    have hp : page = 50 := by omega
    subst hp
    rw [fetch_sj_go_stop t (fuel + 1) 50 more (Or.inr rfl)]
    simp
  | d + 1, page, fuel, more => by
    intro hd hfuel hm
    rw [fetch_sj_go_ok t (fuel + 1) page more (pg page) (by omega) hm (by omega)
        (hok page)]
    have hf : fuel + 1 - 1 = (fuel - 1) + 1 := by omega
    rw [hf]
    rw [fetch_sj_go_run_ok t pg hok hcont d (page + 1) (fuel - 1) (pg page).more
        (by omega) (by omega) (hcont page)]
    rw [List.range'_succ, List.map_cons, List.flatten_cons]

/-- C7: when every response says more pages exist (hh.ru: reported `pages`
at least 200; superjob.ru: `more` always true), the fetch still halts after
its hard ceiling — exactly pages 0..199 for hh.ru and 0..49 for
superjob.ru are consumed, with no error. -/
theorem c7_page_ceiling (pgH : Nat → HHPage) (pgS : Nat → SJPage)
    (hH : ∀ p, 200 ≤ (pgH p).pages) (hS : ∀ p, (pgS p).more = true) :
    fetch_hh_vacancies (fun p => .ok (pgH p)) =
      (((List.range 200).map
          (fun p => (pgH p).items.map (fun vacancy => (vacancy, (pgH p).found)))).flatten,
       none) ∧
    fetch_sj_vacancies (fun p => .ok (pgS p)) =
      (((List.range 50).map
          (fun p => (pgS p).objects.map (fun vacancy => (vacancy, (pgS p).total)))).flatten,
       none) := by
  constructor
  · show fetch_hh_go _ (200 + 1) 0 0 = _
    rw [fetch_hh_go_run_ok _ pgH (fun p => rfl) hH 200 0 0 200 (by norm_num)
        (by norm_num) (by norm_num), List.range_eq_range']
  · show fetch_sj_go _ (50 + 1) 0 true = _
    rw [fetch_sj_go_run_ok _ pgS (fun p => rfl) hS 50 0 50 true (by norm_num)
        (by norm_num) rfl, List.range_eq_range']

/-- From any reachable loop state, an hh.ru run hits the error at page k
after emitting exactly the listings of pages before k. -/
theorem fetch_hh_go_run_err (t : Nat → HHResponse) (pg : Nat → HHPage)
    (k s : Nat) (herr : t k = .httpError s)
    (hok : ∀ p, p < k → t p = .ok (pg p))
    (hcont : ∀ p, p < k → k ≤ (pg p).pages) (hk : k < 200) :
    ∀ (d page pages fuel : Nat), page + d = k → d ≤ fuel → ¬ page > pages →
      fetch_hh_go t (fuel + 1) page pages =
        (((List.range' page d).map
            (fun p => (pg p).items.map (fun vacancy => (vacancy, (pg p).found)))).flatten,
         some s)
  | 0, page, pages, fuel => by
    intro hd _ hpg
    have hp : page = k := by omega
    rw [hp] at hpg ⊢
    rw [fetch_hh_go_err t (fuel + 1) k pages s (by omega) hpg (by omega) herr]
    simp
  | d + 1, page, pages, fuel => by
    intro hd hfuel hpg
    rw [fetch_hh_go_ok t (fuel + 1) page pages (pg page) (by omega) hpg (by omega)
        (hok page (by omega))]
    have hf : fuel + 1 - 1 = (fuel - 1) + 1 := by omega
    rw [hf]
    rw [fetch_hh_go_run_err t pg k s herr hok hcont hk d (page + 1) (pg page).pages
        (fuel - 1) (by omega) (by omega) (by have := hcont page (by omega); omega)]
    rw [List.range'_succ, List.map_cons, List.flatten_cons]

/-- From any reachable loop state, a superjob.ru run hits the error at
page k after emitting exactly the listings of pages before k. -/
theorem fetch_sj_go_run_err (t : Nat → SJResponse) (pg : Nat → SJPage)
    (k s : Nat) (herr : t k = .httpError s)
    (hok : ∀ p, p < k → t p = .ok (pg p))
    (hcont : ∀ p, p < k → (pg p).more = true) (hk : k < 50) :
    ∀ (d page fuel : Nat) (more : Bool), page + d = k → d ≤ fuel → more = true →
      fetch_sj_go t (fuel + 1) page more =
        (((List.range' page d).map
            (fun p => (pg p).objects.map (fun vacancy => (vacancy, (pg p).total)))).flatten,
         some s)
  | 0, page, fuel, more => by
    intro hd _ hm
    have hp : page = k := by omega
    rw [hp]
    rw [fetch_sj_go_err t (fuel + 1) k more s (by omega) hm (by omega) herr]
    simp
  | d + 1, page, fuel, more => by
    intro hd hfuel hm
    rw [fetch_sj_go_ok t (fuel + 1) page more (pg page) (by omega) hm (by omega)
        (hok page (by omega))]
    have hf : fuel + 1 - 1 = (fuel - 1) + 1 := by omega
    rw [hf]
    rw [fetch_sj_go_run_err t pg k s herr hok hcont hk d (page + 1) (fuel - 1)
        (pg page).more (by omega) (by omega) (hcont page (by omega))]
    rw [List.range'_succ, List.map_cons, List.flatten_cons]

/-- C9: a non-success HTTP status on page k aborts the fetch immediately:
only listings of pages before k are yielded, the error status is surfaced,
and the result does not depend on the transport beyond page k (the theorem
holds for every behaviour of the transport on later pages, so none is
requested and none is retried). -/
theorem c9_error_aborts
    (tH : Nat → HHResponse) (pgH : Nat → HHPage) (kH sH : Nat)
    (tS : Nat → SJResponse) (pgS : Nat → SJPage) (kS sS : Nat)
    (hkH : kH < 200) (hokH : ∀ p, p < kH → tH p = .ok (pgH p))
    (hcontH : ∀ p, p < kH → kH ≤ (pgH p).pages) (herrH : tH kH = .httpError sH)
    (hkS : kS < 50) (hokS : ∀ p, p < kS → tS p = .ok (pgS p))
    (hcontS : ∀ p, p < kS → (pgS p).more = true) (herrS : tS kS = .httpError sS) :
    fetch_hh_vacancies tH =
      (((List.range kH).map
          (fun p => (pgH p).items.map (fun vacancy => (vacancy, (pgH p).found)))).flatten,
       some sH) ∧
    fetch_sj_vacancies tS =
      (((List.range kS).map
          (fun p => (pgS p).objects.map (fun vacancy => (vacancy, (pgS p).total)))).flatten,
       some sS) := by
  constructor
  · show fetch_hh_go tH (200 + 1) 0 0 = _
    rw [fetch_hh_go_run_err tH pgH kH sH herrH hokH hcontH hkH kH 0 0 200
        (by omega) (by omega) (by omega), List.range_eq_range']
  · show fetch_sj_go tS (50 + 1) 0 true = _
    rw [fetch_sj_go_run_err tS pgS kS sS herrS hokS hcontS hkS kS 0 50 true
        (by omega) (by omega) rfl, List.range_eq_range']

set_option maxRecDepth 8000 in
/-- C6 witness: concrete four-page transports per source. -/
theorem c6_three_pages_thirty_witness :
    fetch_hh_vacancies
        (fun n => if n = 0 then .ok ⟨3, 100, List.replicate 10 ⟨none⟩⟩
                  else if n = 1 then .ok ⟨3, 101, List.replicate 10 ⟨none⟩⟩
                  else if n = 2 then .ok ⟨3, 102, List.replicate 10 ⟨none⟩⟩
                  else .ok ⟨3, 103, []⟩) =
      (List.replicate 10 ((⟨none⟩ : HHVacancy), (100 : Int)) ++
        (List.replicate 10 ((⟨none⟩ : HHVacancy), (101 : Int)) ++
          List.replicate 10 ((⟨none⟩ : HHVacancy), (102 : Int))), none) ∧
    (fetch_hh_vacancies
        (fun n => if n = 0 then .ok ⟨3, 100, List.replicate 10 ⟨none⟩⟩
                  else if n = 1 then .ok ⟨3, 101, List.replicate 10 ⟨none⟩⟩
                  else if n = 2 then .ok ⟨3, 102, List.replicate 10 ⟨none⟩⟩
                  else .ok ⟨3, 103, []⟩)).1.length = 30 ∧
    fetch_sj_vacancies
        (fun n => if n = 0 then .ok ⟨true, 200, List.replicate 10 ⟨"rub", none, none⟩⟩
                  else if n = 1 then .ok ⟨true, 201, List.replicate 10 ⟨"rub", none, none⟩⟩
                  else if n = 2 then .ok ⟨true, 202, List.replicate 10 ⟨"rub", none, none⟩⟩
                  else .ok ⟨false, 203, []⟩) =
      (List.replicate 10 ((⟨"rub", none, none⟩ : SJVacancy), (200 : Int)) ++
        (List.replicate 10 ((⟨"rub", none, none⟩ : SJVacancy), (201 : Int)) ++
          List.replicate 10 ((⟨"rub", none, none⟩ : SJVacancy), (202 : Int))), none) ∧
    (fetch_sj_vacancies
        (fun n => if n = 0 then .ok ⟨true, 200, List.replicate 10 ⟨"rub", none, none⟩⟩
                  else if n = 1 then .ok ⟨true, 201, List.replicate 10 ⟨"rub", none, none⟩⟩
                  else if n = 2 then .ok ⟨true, 202, List.replicate 10 ⟨"rub", none, none⟩⟩
                  else .ok ⟨false, 203, []⟩)).1.length = 30 := by
  have h := c6_three_pages_thirty
      (fun n => if n = 0 then .ok ⟨3, 100, List.replicate 10 ⟨none⟩⟩
                else if n = 1 then .ok ⟨3, 101, List.replicate 10 ⟨none⟩⟩
                else if n = 2 then .ok ⟨3, 102, List.replicate 10 ⟨none⟩⟩
                else .ok ⟨3, 103, []⟩)
      (fun n => if n = 0 then .ok ⟨true, 200, List.replicate 10 ⟨"rub", none, none⟩⟩
                else if n = 1 then .ok ⟨true, 201, List.replicate 10 ⟨"rub", none, none⟩⟩
                else if n = 2 then .ok ⟨true, 202, List.replicate 10 ⟨"rub", none, none⟩⟩
                else .ok ⟨false, 203, []⟩)
      ⟨3, 100, List.replicate 10 ⟨none⟩⟩ ⟨3, 101, List.replicate 10 ⟨none⟩⟩
      ⟨3, 102, List.replicate 10 ⟨none⟩⟩ ⟨3, 103, []⟩
      ⟨true, 200, List.replicate 10 ⟨"rub", none, none⟩⟩
      ⟨true, 201, List.replicate 10 ⟨"rub", none, none⟩⟩
      ⟨true, 202, List.replicate 10 ⟨"rub", none, none⟩⟩ ⟨false, 203, []⟩
      rfl rfl rfl rfl rfl rfl rfl rfl (by decide) (by decide) (by decide) rfl
      rfl rfl rfl rfl rfl rfl rfl rfl (by decide) (by decide) (by decide) rfl
  exact ⟨h.1.trans (by decide), h.2.1, h.2.2.1.trans (by decide), h.2.2.2⟩

set_option maxRecDepth 8000 in
/-- C7 witness: never-terminating transports with empty pages. -/
theorem c7_page_ceiling_witness :
    fetch_hh_vacancies (fun _ => .ok ⟨300, 7, []⟩) = ([], none) ∧
    fetch_sj_vacancies (fun _ => .ok ⟨true, 7, []⟩) = ([], none) := by
  have h := c7_page_ceiling (fun _ => ⟨300, 7, []⟩) (fun _ => ⟨true, 7, []⟩)
      (fun p => by norm_num) (fun p => rfl)
  exact ⟨h.1.trans (by decide), h.2.trans (by decide)⟩

/-- C9 witness: one good page then a failing page, per source. -/
theorem c9_error_aborts_witness :
    fetch_hh_vacancies
        (fun p => if p = 0 then .ok ⟨1, 7, [⟨none⟩]⟩ else .httpError 503) =
      ([((⟨none⟩ : HHVacancy), (7 : Int))], some 503) ∧
    fetch_sj_vacancies
        (fun p => if p = 0 then .ok ⟨true, 9, [⟨"rub", none, none⟩]⟩
                  else .httpError 404) =
      ([((⟨"rub", none, none⟩ : SJVacancy), (9 : Int))], some 404) := by
  have h := c9_error_aborts
      (fun p => if p = 0 then .ok ⟨1, 7, [⟨none⟩]⟩ else .httpError 503)
      (fun _ => ⟨1, 7, [⟨none⟩]⟩) 1 503
      (fun p => if p = 0 then .ok ⟨true, 9, [⟨"rub", none, none⟩]⟩
                else .httpError 404)
      (fun _ => ⟨true, 9, [⟨"rub", none, none⟩]⟩) 1 404
      (by norm_num)
      (fun p hp => by
        have : p = 0 := by omega
        subst this
        rfl)
      (fun p hp => Nat.le_refl 1)
      rfl
      (by norm_num)
      (fun p hp => by
        have : p = 0 := by omega
        subst this
        rfl)
      (fun p hp => rfl)
      rfl
  exact ⟨h.1.trans (by decide), h.2.trans (by decide)⟩

/-- C8: each per-source adapter returns `none` when the listing's currency
differs from the fixed target code ("RUR" for hh.ru, "rub" for
superjob.ru) and otherwise delegates to `predict_salary` on the listing's
bounds; an hh.ru listing with a null salary object also yields `none`. -/
theorem c8_currency_filter :
    (∀ salary : HHSalary, salary.currency ≠ "RUR" →
        predict_rub_salary_hh ⟨some salary⟩ = none) ∧
    (∀ salary : HHSalary, salary.currency = "RUR" →
        predict_rub_salary_hh ⟨some salary⟩ =
          predict_salary salary.«from» salary.«to») ∧
    predict_rub_salary_hh ⟨none⟩ = none ∧
    (∀ vacancy : SJVacancy, vacancy.currency ≠ "rub" →
        predict_rub_salary_sj vacancy = none) ∧
    (∀ vacancy : SJVacancy, vacancy.currency = "rub" →
        predict_rub_salary_sj vacancy =
          predict_salary vacancy.payment_from vacancy.payment_to) := by
  refine ⟨fun s h => ?_, fun s h => ?_, rfl, fun v h => ?_, fun v h => ?_⟩ <;>
    simp [predict_rub_salary_hh, predict_rub_salary_sj, h]

/-- C8 witness: matching and non-matching currencies per source. -/
theorem c8_currency_filter_witness :
    predict_rub_salary_hh ⟨some ⟨"USD", some 1000, some 2000⟩⟩ = none ∧
    predict_rub_salary_hh ⟨some ⟨"RUR", some 1000, some 2000⟩⟩ =
      predict_salary (some 1000) (some 2000) ∧
    predict_rub_salary_sj ⟨"usd", some 1000, none⟩ = none ∧
    predict_rub_salary_sj ⟨"rub", some 1000, none⟩ = predict_salary (some 1000) none :=
  ⟨c8_currency_filter.1 ⟨"USD", some 1000, some 2000⟩ (by decide),
   c8_currency_filter.2.1 ⟨"RUR", some 1000, some 2000⟩ rfl,
   c8_currency_filter.2.2.2.1 ⟨"usd", some 1000, none⟩ (by decide),
   c8_currency_filter.2.2.2.2 ⟨"rub", some 1000, none⟩ rfl⟩

example : predict_salary (some 1000) (some 2000) = some 1500 := by decide
example : predict_salary (some 1000) none = some 1200 := by decide
example : predict_salary none (some 1000) = some 800 := by decide
example : predict_salary none none = none := by decide
example : predict_salary (some 0) (some 1000) = some 800 := by decide
example : predict_salary none (some 1) = some 0 := by decide
example : predict_salary none (some (-2)) = some (-1) := by decide
example : predict_salary none (some (-3)) = some (-2) := by decide
